import Mathlib

/-!
Verification of the layer/room parallax compositing model of the ChaiGame
scene viewer (src/main.cpp).  The C++ code is shallowly embedded: `double`
coordinates become exact rationals, `boost::shared_ptr` identities become
natural-number ids, and drawing onto a surface is recorded as an event trace.
-/

/-- The 2D coordinate value type (`class Position`, src/main.cpp lines 16-59).
The C++ members are `double`; they are modelled as exact rationals. -/
structure Position where
  x : ℚ
  y : ℚ
deriving DecidableEq, Repr

/-- The member `Position::operator+` (src/main.cpp lines 44-47): componentwise sum. -/
def Position.add (a b : Position) : Position :=
  ⟨a.x + b.x, a.y + b.y⟩

instance : Add Position := ⟨Position.add⟩

/-- The member `Position::operator<` (src/main.cpp lines 49-53): y-major, x-minor
strict comparison, returned as a Bool exactly as the C++ expression
`(m_y < rhs.m_y) || (m_y == rhs.m_y && m_x < rhs.m_x)`. -/
def Position.ltb (a b : Position) : Bool :=
  decide (a.y < b.y) || (decide (a.y = b.y) && decide (a.x < b.x))

/-- Identity of a `boost::shared_ptr<Object>`; `Object`s are immutable
images, so only their identity matters to the placement container. -/
abbrev ObjId := Nat

/-- The comparison `std::pair<Position, shared_ptr<Object>>::operator<` as used by the
`std::set` key comparison in `Layer::m_objects` (src/main.cpp line 243):
lexicographic on (Position, pointer identity). -/
def pairLtB (a b : Position × ObjId) : Bool :=
  Position.ltb a.1 b.1 || (!(Position.ltb b.1 a.1) && decide (a.2 < b.2))

/-- The effect of `std::set::insert` on the ordered placement container: keeps the list
sorted by `pairLtB` and silently does nothing when an equivalent key is
already present. -/
def setInsert (a : Position × ObjId) : List (Position × ObjId) → List (Position × ObjId)
  | [] => [a]
  | b :: rest =>
      if pairLtB a b then a :: b :: rest
      else if pairLtB b a then b :: setInsert a rest
      else b :: rest

/-- A `Layer` (src/main.cpp lines 190-244): background extent, dirty flag,
the accumulated draws into the internal composite buffer
(`m_rendered_surface`; the clear of that buffer is commented out in the
source, so draws accumulate), and the ordered placement set `m_objects`. -/
structure Layer where
  lwidth : ℚ
  lheight : ℚ
  dirty : Bool
  buffer : List (Position × ObjId)
  objects : List (Position × ObjId)
deriving DecidableEq, Repr

/-- The member `Layer::addObject` (src/main.cpp lines 199-203): insert the placement
into the set and mark the layer dirty. -/
def Layer.addObject (l : Layer) (p : Position) (o : ObjId) : Layer :=
  { l with objects := setInsert (p, o) l.objects, dirty := true }

/-- One observable action of `Layer::render`. -/
inductive LayerEv where
  /-- an Object drawn into the internal composite buffer (recompositing) -/
  | recompose (p : Position) (o : ObjId)
  /-- the cached composite blitted onto the target surface at an offset -/
  | blitCached (offset : Position)
deriving DecidableEq, Repr

/-- The member `Layer::render` (src/main.cpp lines 205-223): when dirty, draw every
placed Object into the composite buffer in set order and clear the flag;
then always blit the cached composite at the given offset.  Returns the
updated layer and the trace of drawing actions. -/
def Layer.render (l : Layer) (offset : Position) : Layer × List LayerEv :=
  if l.dirty then
    ({ l with dirty := false, buffer := l.buffer ++ l.objects },
      l.objects.map (fun po => LayerEv.recompose po.1 po.2) ++ [LayerEv.blitCached offset])
  else
    (l, [LayerEv.blitCached offset])

/-- The target `Surface` seen by `Room::render`: only its pixel dimensions
matter (`width()`/`height()`, src/main.cpp lines 116-124); the drawing it
receives is recorded in the event trace instead. -/
structure Surface where
  width : ℚ
  height : ℚ
deriving DecidableEq, Repr

/-- Identity of a `boost::shared_ptr<Layer>` held by a `Room`. -/
abbrev LayerId := Nat

/-- A `Room` (src/main.cpp lines 247-293): the ordered list of shared
references to its layers.  The referenced `Layer` states live in a store
`LayerId → Layer` passed to `render`, mirroring shared ownership. -/
structure Room where
  layerIds : List LayerId
deriving DecidableEq, Repr

/-- The member `Room::addLayer` (src/main.cpp lines 251-254): `push_back`. -/
def Room.addLayer (r : Room) (id : LayerId) : Room :=
  { r with layerIds := r.layerIds ++ [id] }

/-- One observable action of `Room::render` on the target surface. -/
inductive RoomEv where
  /-- an action of layer `id` during its `Layer::render` call -/
  | layerEv (id : LayerId) (e : LayerEv)
  /-- the call `t_surface.flip()` presenting the target surface -/
  | flip
deriving DecidableEq, Repr

/-- The error raised by `Room::render` (src/main.cpp line 265,
`std::runtime_error` with the not-found message). -/
inductive RoomError where
  | centerLayerNotFound
deriving DecidableEq, Repr

/-- The per-layer loop of `Room::render` (src/main.cpp lines 274-285):
for each layer in list order, compute the parallax offset from the shared
anchor fractions `xp = pos.x / centerWidth`, `yp = pos.y / centerHeight`
and the surface half-extent, call `Layer::render`, and thread the updated
layer state back into the store. -/
def renderLoop (xp yp sw sh : ℚ) :
    (LayerId → Layer) → List LayerId → (LayerId → Layer) × List RoomEv
  | store, [] => (store, [])
  | store, id :: rest =>
      let l := store id
      let off : Position := ⟨-(l.lwidth * xp) + sw / 2, -(l.lheight * yp) + sh / 2⟩
      let res := l.render off
      let tail := renderLoop xp yp sw sh (Function.update store id res.1) rest
      (tail.1, res.2.map (RoomEv.layerEv id) ++ tail.2)

/-- The member `Room::render` (src/main.cpp lines 256-288): locate the center layer by
identity; if absent raise the not-found error and draw nothing; otherwise
compute the anchor fractions from the center layer extent, render every
layer in list order with its parallax offset, and finally flip the target
surface.  The result is the trace of drawing actions. -/
def Room.render (r : Room) (store : LayerId → Layer) (surf : Surface)
    (centerId : LayerId) (pos : Position) : Except RoomError (List RoomEv) :=
  if centerId ∈ r.layerIds then
    let c := store centerId
    let xp := pos.x / c.lwidth
    let yp := pos.y / c.lheight
    Except.ok ((renderLoop xp yp surf.width surf.height store r.layerIds).2 ++ [RoomEv.flip])
  else
    Except.error RoomError.centerLayerNotFound

/-- The `(layer id, offset)` pairs of the cached-composite blits in a trace,
in trace order: these are exactly the offsets `Room::render` passes to each
`Layer::render` call. -/
def blitOffsets (evs : List RoomEv) : List (LayerId × Position) :=
  evs.filterMap fun e =>
    match e with
    | RoomEv.layerEv id (LayerEv.blitCached off) => some (id, off)
    | _ => none

/-- The `struct State` (src/main.cpp lines 296-320): viewpoint, four held-key
movement flags, seconds-per-frame estimate and the frame counter. -/
structure State where
  p : Position
  moving_left : Bool
  moving_right : Bool
  moving_up : Bool
  moving_down : Bool
  s_per_frame : ℚ
  frame_count : Int
deriving DecidableEq, Repr

/-- SDL 1.2 keysym value of the left arrow key. -/
def SDLK_LEFT : Nat := 276
/-- SDL 1.2 keysym value of the right arrow key. -/
def SDLK_RIGHT : Nat := 275
/-- SDL 1.2 keysym value of the up arrow key. -/
def SDLK_UP : Nat := 273
/-- SDL 1.2 keysym value of the down arrow key. -/
def SDLK_DOWN : Nat := 274

/-- The function `handleKey` (src/main.cpp lines 322-345): set the movement flag of the
matching arrow key to the pressed/released state of the event
(`keypressed = key.state == SDL_PRESSED`); any other key falls through the
default case and changes nothing. -/
def handleKey (s : State) (keypressed : Bool) (sym : Nat) : State :=
  if sym = SDLK_LEFT then { s with moving_left := keypressed }
  else if sym = SDLK_RIGHT then { s with moving_right := keypressed }
  else if sym = SDLK_UP then { s with moving_up := keypressed }
  else if sym = SDLK_DOWN then { s with moving_down := keypressed }
  else s

/-- One polled SDL event, as dispatched by `handleSDLEvents`
(src/main.cpp lines 379-403). -/
inductive Event where
  /-- an `SDL_KEYDOWN` or `SDL_KEYUP` event, carrying pressed state and keysym -/
  | key (keypressed : Bool) (sym : Nat)
  /-- the `SDL_QUIT` event -/
  | quit
  /-- the `SDL_USEREVENT` tick, the synthetic 100ms timer tick -/
  | user
  /-- any other event type (default case: ignored) -/
  | other
deriving DecidableEq, Repr

/-- The `Quit_Exception` signal thrown on `SDL_QUIT` (src/main.cpp lines 367-377). -/
inductive QuitSignal where
  | quitRequested
deriving DecidableEq, Repr

/-- The function `handleSDLEvents` (src/main.cpp lines 379-403), given the polled event:
key events go to `handleKey`; `SDL_QUIT` throws `Quit_Exception`; the timer
tick recomputes `s_per_frame = 1 / (double(frame_count) * 10)` with an
unguarded division and resets `frame_count` to 0; anything else is ignored. -/
def handleSDLEvents (s : State) (e : Event) : Except QuitSignal State :=
  match e with
  | Event.key keypressed sym => Except.ok (handleKey s keypressed sym)
  | Event.quit => Except.error QuitSignal.quitRequested
  | Event.user =>
      Except.ok { s with s_per_frame := 1 / ((s.frame_count : ℚ) * 10), frame_count := 0 }
  | Event.other => Except.ok s

/-- The `State()` default constructor (src/main.cpp lines 310-319):
viewpoint (100,100), no movement, `s_per_frame = .03`, `frame_count = 0`. -/
def initState : State :=
  { p := ⟨100, 100⟩
    moving_left := false
    moving_right := false
    moving_up := false
    moving_down := false
    s_per_frame := 3 / 100
    frame_count := 0 }

/-- Unfolding of `+` on `Position`. -/
theorem Position.add_def (a b : Position) : a + b = ⟨a.x + b.x, a.y + b.y⟩ := rfl

/-- C6: Position addition is commutative and componentwise. -/
theorem Position.add_comm_componentwise (a b : Position) :
    a + b = b + a ∧ (a + b).x = a.x + b.x ∧ (a + b).y = a.y + b.y := by
  refine ⟨?_, rfl, rfl⟩
  rw [Position.add_def, Position.add_def]
  simp [add_comm]

/-- C7: `Position::operator<` is transitive and irreflexive (the two laws
of a strict weak order stated by the spec). -/
theorem Position.ltb_trans_irrefl (a b c : Position) :
    (Position.ltb a b = true → Position.ltb b c = true → Position.ltb a c = true) ∧
      Position.ltb a a = false := by
  constructor
  · intro hab hbc
    simp only [Position.ltb, Bool.or_eq_true, Bool.and_eq_true, decide_eq_true_eq] at hab hbc ⊢
    rcases hab with h1 | ⟨h1, h2⟩ <;> rcases hbc with h3 | ⟨h3, h4⟩
    · exact Or.inl (lt_trans h1 h3)
    · exact Or.inl (h3 ▸ h1)
    · exact Or.inl (h1 ▸ h3)
    · exact Or.inr ⟨h1.trans h3, lt_trans h2 h4⟩
  · simp [Position.ltb]

/-- Witness for C7: the transitivity law applied at concrete positions. -/
theorem Position.ltb_trans_irrefl_witness :
    Position.ltb ⟨0, 0⟩ ⟨2, 0⟩ = true ∧ Position.ltb ⟨0, 0⟩ ⟨0, 0⟩ = false :=
  ⟨(Position.ltb_trans_irrefl ⟨0, 0⟩ ⟨1, 0⟩ ⟨2, 0⟩).1 (by decide) (by decide),
    (Position.ltb_trans_irrefl ⟨0, 0⟩ ⟨1, 0⟩ ⟨0, 0⟩).2⟩

/-- C3: after `addObject` the layer is dirty; the next `render`
recomposites the full placement set into the composite buffer exactly once
and clears the dirty flag; a second `render` with no intervening
`addObject` emits no recompositing work, only the cached-composite blit. -/
theorem Layer.render_cache_discipline (l : Layer) (p : Position) (o : ObjId)
    (off off' : Position) :
    (l.addObject p o).dirty = true ∧
      ((l.addObject p o).render off).2 =
        (l.addObject p o).objects.map (fun po => LayerEv.recompose po.1 po.2) ++
          [LayerEv.blitCached off] ∧
      (((l.addObject p o).render off).1).dirty = false ∧
      ((((l.addObject p o).render off).1).render off').2 = [LayerEv.blitCached off'] := by
  refine ⟨rfl, ?_, ?_, ?_⟩ <;> simp [Layer.addObject, Layer.render]

/-- Counterexample to C4: two placements with the same Position but
distinct Objects do coexist in the placement set, because the set is keyed
on the (position, object) pair, not on the position alone. -/
theorem Layer.same_position_coexist_counterexample :
    (((Layer.mk 640 480 false [] []).addObject ⟨5, 5⟩ 1).addObject ⟨5, 5⟩ 2).objects =
        [(⟨5, 5⟩, 1), (⟨5, 5⟩, 2)] ∧
      ((⟨5, 5⟩ : Position), 1) ∈
        (((Layer.mk 640 480 false [] []).addObject ⟨5, 5⟩ 1).addObject ⟨5, 5⟩ 2).objects ∧
      ((⟨5, 5⟩ : Position), 2) ∈
        (((Layer.mk 640 480 false [] []).addObject ⟨5, 5⟩ 1).addObject ⟨5, 5⟩ 2).objects := by
  refine ⟨by decide, ?_, ?_⟩ <;> decide

/-- The comparison `pairLtB` is irreflexive. -/
theorem pairLtB_irrefl (a : Position × ObjId) : pairLtB a a = false := by
  simp [pairLtB, Position.ltb]

/-- Inserting the same key twice into the ordered set is a no-op the
second time. -/
theorem setInsert_idem (a : Position × ObjId) (xs : List (Position × ObjId)) :
    setInsert a (setInsert a xs) = setInsert a xs := by
  induction xs with
  | nil => simp [setInsert, pairLtB_irrefl]
  | cons b rest ih =>
      by_cases h1 : pairLtB a b
      · simp [setInsert, h1, pairLtB_irrefl]
      · by_cases h2 : pairLtB b a
        · simp [setInsert, h1, h2, ih]
        · simp [setInsert, h1, h2]

/-- C4 (amended): a placement identical in both position and object cannot
be duplicated — re-adding the same (position, object) pair leaves the
placement set unchanged (the second `std::set::insert` is a silent no-op). -/
theorem Layer.addObject_same_pair_noop (l : Layer) (p : Position) (o : ObjId) :
    ((l.addObject p o).addObject p o).objects = (l.addObject p o).objects := by
  simp [Layer.addObject, setInsert_idem]

/-- Rendering never changes the layer extent (width). -/
theorem Layer.render_fst_lwidth (l : Layer) (off : Position) :
    ((l.render off).1).lwidth = l.lwidth := by
  by_cases h : l.dirty <;> simp [Layer.render, h]

/-- Rendering never changes the layer extent (height). -/
theorem Layer.render_fst_lheight (l : Layer) (off : Position) :
    ((l.render off).1).lheight = l.lheight := by
  by_cases h : l.dirty <;> simp [Layer.render, h]

/-- The projection `blitOffsets` distributes over trace concatenation. -/
theorem blitOffsets_append (a b : List RoomEv) :
    blitOffsets (a ++ b) = blitOffsets a ++ blitOffsets b := by
  simp [blitOffsets]

/-- Recompositing actions contribute no cached-composite blits. -/
theorem blitOffsets_recompose (id : LayerId) (xs : List (Position × ObjId)) :
    blitOffsets (xs.map fun po => RoomEv.layerEv id (LayerEv.recompose po.1 po.2)) = [] := by
  induction xs with
  | nil => rfl
  | cons a t ih => simp [blitOffsets]

/-- One `Layer::render` call contributes exactly one cached-composite blit,
at the offset it was passed. -/
theorem blitOffsets_layer_render (l : Layer) (off : Position) (id : LayerId) :
    blitOffsets ((l.render off).2.map (RoomEv.layerEv id)) = [(id, off)] := by
  by_cases h : l.dirty <;>
    simp [Layer.render, h, blitOffsets_append, blitOffsets, List.filterMap_map,
      Function.comp]

/-- The per-layer loop emits, in list order, one cached-composite blit per
layer at the offset `(-(width·xp) + sw/2, -(height·yp) + sh/2)` computed
from the width and height the layer had when the loop reached it — which,
since rendering never changes extents, is its width and height in the
initial store. -/
theorem renderLoop_blitOffsets (xp yp sw sh : ℚ) (ids : List LayerId) :
    ∀ store : LayerId → Layer,
      blitOffsets (renderLoop xp yp sw sh store ids).2 =
        ids.map fun id =>
          (id, (⟨-((store id).lwidth * xp) + sw / 2,
                -((store id).lheight * yp) + sh / 2⟩ : Position)) := by
  induction ids with
  | nil => intro store; rfl
  | cons id rest ih =>
      intro store
      simp only [renderLoop]
      rw [blitOffsets_append, blitOffsets_layer_render, ih, List.map_cons,
        List.singleton_append]
      congr 1
      apply List.map_congr_left
      intro j _
      by_cases hj : j = id
      · subst hj
        simp [Function.update, Layer.render_fst_lwidth, Layer.render_fst_lheight]
      · simp [Function.update, hj]

/-- The per-layer loop never flips the surface. -/
theorem renderLoop_flip_not_mem (xp yp sw sh : ℚ) (ids : List LayerId) :
    ∀ store : LayerId → Layer, RoomEv.flip ∉ (renderLoop xp yp sw sh store ids).2 := by
  induction ids with
  | nil => intro store; simp [renderLoop]
  | cons id rest ih =>
      intro store
      simp only [renderLoop, List.mem_append, List.mem_map]
      push_neg
      exact ⟨fun e _ => by simp, ih _⟩

/-- Characterization of a successful `Room::render` trace: the
cached-composite blits are one per layer in list order, each at the
parallax offset computed from the anchor fractions of the center layer. -/
theorem room_render_blitOffsets (r : Room) (store : LayerId → Layer) (surf : Surface)
    (centerId : LayerId) (pos : Position) (evs : List RoomEv)
    (hc : centerId ∈ r.layerIds)
    (hr : r.render store surf centerId pos = Except.ok evs) :
    blitOffsets evs =
      r.layerIds.map fun id =>
        (id, (⟨-((store id).lwidth * (pos.x / (store centerId).lwidth)) + surf.width / 2,
              -((store id).lheight * (pos.y / (store centerId).lheight)) + surf.height / 2⟩ :
            Position)) := by
  rw [Room.render, if_pos hc] at hr
  injection hr with h
  subst h
  rw [blitOffsets_append, renderLoop_blitOffsets]
  simp [blitOffsets]

/-- Demo fixture: layer 0 is a 640×480 layer, every other id is a
1000×1000 layer; all layers start clean and empty. -/
def demoStore : LayerId → Layer := fun id =>
  if id = 0 then ⟨640, 480, false, [], []⟩ else ⟨1000, 1000, false, [], []⟩

/-- Demo fixture: a room holding layer 0 then layer 1, built by `addLayer`. -/
def demoRoom : Room := (Room.mk []).addLayer 0 |>.addLayer 1

/-- Demo fixture: the 640×480 target surface. -/
def demoSurface : Surface := ⟨640, 480⟩

/-- The trace produced by rendering `demoRoom` on `demoSurface` with
center layer 1 at viewpoint (100, 100). -/
def demoEvs : List RoomEv :=
  [RoomEv.layerEv 0 (LayerEv.blitCached ⟨256, 192⟩),
    RoomEv.layerEv 1 (LayerEv.blitCached ⟨220, 140⟩),
    RoomEv.flip]

/-- Evaluation of the demo render: center layer 1 at viewpoint (100,100)
produces exactly the trace `demoEvs`. -/
theorem demo_render_eq :
    demoRoom.render demoStore demoSurface 1 ⟨100, 100⟩ = Except.ok demoEvs := by
  norm_num [Room.render, demoRoom, demoStore, demoSurface, Room.addLayer, renderLoop,
    Layer.render, Function.update, demoEvs]

/-- C1: with the center layer present, `Room::render` passes every layer L
the offset `(-(L.width·v.x/C.width) + surfW/2, -(L.height·v.y/C.height) + surfH/2)`. -/
theorem room_render_parallax_offset_law (r : Room) (store : LayerId → Layer)
    (surf : Surface) (centerId : LayerId) (pos : Position) (evs : List RoomEv)
    (hc : centerId ∈ r.layerIds)
    (hr : r.render store surf centerId pos = Except.ok evs) :
    blitOffsets evs =
      r.layerIds.map fun id =>
        (id, (⟨-((store id).lwidth * pos.x / (store centerId).lwidth) + surf.width / 2,
              -((store id).lheight * pos.y / (store centerId).lheight) + surf.height / 2⟩ :
            Position)) := by
  rw [room_render_blitOffsets r store surf centerId pos evs hc hr]
  apply List.map_congr_left
  intro j _
  simp [mul_div_assoc]

/-- Witness for C1: surface 640×480, center 1000×1000, viewpoint (100,100);
the 640×480 layer gets offset (256, 192) and the center gets (220, 140). -/
theorem room_render_parallax_offset_law_witness :
    blitOffsets demoEvs = [(0, (⟨256, 192⟩ : Position)), (1, ⟨220, 140⟩)] := by
  have h := room_render_parallax_offset_law demoRoom demoStore demoSurface 1 ⟨100, 100⟩
    demoEvs (by decide) demo_render_eq
  refine h.trans ?_
  norm_num [demoRoom, demoStore, demoSurface, Room.addLayer]

/-- C2: requesting `Room::render` with a center layer that is not a member
of the layer list raises the not-found error and produces no trace: no
layer is rendered and the surface is neither drawn on nor flipped. -/
theorem room_render_center_missing (r : Room) (store : LayerId → Layer)
    (surf : Surface) (centerId : LayerId) (pos : Position)
    (hc : centerId ∉ r.layerIds) :
    r.render store surf centerId pos = Except.error RoomError.centerLayerNotFound := by
  rw [Room.render, if_neg hc]

/-- Witness for C2: layer id 5 is not in the demo room. -/
theorem room_render_center_missing_witness :
    demoRoom.render demoStore demoSurface 5 ⟨100, 100⟩ =
      Except.error RoomError.centerLayerNotFound :=
  room_render_center_missing demoRoom demoStore demoSurface 5 ⟨100, 100⟩ (by decide)

/-- C5: the center layer itself is always blitted at exactly
`(surfW/2 - v.x, surfH/2 - v.y)`, because `(v.x / C.width) · C.width`
cancels exactly (nonzero extent). -/
theorem room_render_center_layer_offset (r : Room) (store : LayerId → Layer)
    (surf : Surface) (centerId : LayerId) (pos : Position) (evs : List RoomEv)
    (hc : centerId ∈ r.layerIds)
    (hw : (store centerId).lwidth ≠ 0) (hh : (store centerId).lheight ≠ 0)
    (hr : r.render store surf centerId pos = Except.ok evs) :
    (∀ q ∈ blitOffsets evs, q.1 = centerId →
        q.2 = ⟨surf.width / 2 - pos.x, surf.height / 2 - pos.y⟩) ∧
      (centerId, (⟨surf.width / 2 - pos.x, surf.height / 2 - pos.y⟩ : Position)) ∈
        blitOffsets evs := by
  have hb := room_render_blitOffsets r store surf centerId pos evs hc hr
  have h1 : (store centerId).lwidth * (pos.x / (store centerId).lwidth) = pos.x := by
    rw [← mul_div_assoc, mul_div_cancel_left₀ _ hw]
  have h2 : (store centerId).lheight * (pos.y / (store centerId).lheight) = pos.y := by
    rw [← mul_div_assoc, mul_div_cancel_left₀ _ hh]
  have hoff :
      (⟨-((store centerId).lwidth * (pos.x / (store centerId).lwidth)) + surf.width / 2,
        -((store centerId).lheight * (pos.y / (store centerId).lheight)) + surf.height / 2⟩ :
          Position) =
        ⟨surf.width / 2 - pos.x, surf.height / 2 - pos.y⟩ := by
    rw [h1, h2, neg_add_eq_sub, neg_add_eq_sub]
  constructor
  · intro q hq hqc
    rw [hb] at hq
    obtain ⟨j, hj, rfl⟩ := List.mem_map.mp hq
    dsimp only at hqc ⊢
    subst hqc
    exact congrArg Prod.snd (congrArg (Prod.mk j) hoff)
  · rw [hb]
    refine List.mem_map.mpr ⟨centerId, hc, ?_⟩
    rw [hoff]

/-- Witness for C5: in the demo room the center layer (1000×1000) is
blitted at (640/2 - 100, 480/2 - 100) = (220, 140). -/
theorem room_render_center_layer_offset_witness :
    ((1 : LayerId), (⟨220, 140⟩ : Position)) ∈ blitOffsets demoEvs := by
  have h := (room_render_center_layer_offset demoRoom demoStore demoSurface 1 ⟨100, 100⟩
    demoEvs (by decide) (by decide) (by decide) demo_render_eq).2
  norm_num [demoSurface] at h
  exact h

/-- C8: `addLayer` appends at the back, so the room renders layers in
insertion order (paint order, back-to-front); a successful render blits
each layer in list order at its parallax offset and flips the surface
exactly once, after all layers. -/
theorem room_render_paint_order_and_flip (r : Room) (store : LayerId → Layer)
    (surf : Surface) (centerId : LayerId) (pos : Position) (evs : List RoomEv)
    (lid : LayerId)
    (hc : centerId ∈ r.layerIds)
    (hr : r.render store surf centerId pos = Except.ok evs) :
    (r.addLayer lid).layerIds = r.layerIds ++ [lid] ∧
      blitOffsets evs =
        (r.layerIds.map fun id =>
          (id, (⟨-((store id).lwidth * (pos.x / (store centerId).lwidth)) + surf.width / 2,
                -((store id).lheight * (pos.y / (store centerId).lheight)) + surf.height / 2⟩ :
              Position))) ∧
      List.count RoomEv.flip evs = 1 ∧
      evs.getLast? = some RoomEv.flip := by
  have hb := room_render_blitOffsets r store surf centerId pos evs hc hr
  rw [Room.render, if_pos hc] at hr
  injection hr with h
  subst h
  refine ⟨rfl, hb, ?_, ?_⟩
  · rw [List.count_append,
      List.count_eq_zero.mpr
        (renderLoop_flip_not_mem (pos.x / (store centerId).lwidth)
          (pos.y / (store centerId).lheight) surf.width surf.height r.layerIds store)]
    rfl
  · simp

/-- Witness for C8: the demo room renders layer 0 then layer 1, then flips
once at the end of the trace. -/
theorem room_render_paint_order_and_flip_witness :
    (demoRoom.addLayer 7).layerIds = [0, 1, 7] ∧
      blitOffsets demoEvs = [(0, (⟨256, 192⟩ : Position)), (1, ⟨220, 140⟩)] ∧
      List.count RoomEv.flip demoEvs = 1 ∧
      demoEvs.getLast? = some RoomEv.flip := by
  have h := room_render_paint_order_and_flip demoRoom demoStore demoSurface 1 ⟨100, 100⟩
    demoEvs 7 (by decide) demo_render_eq
  refine ⟨h.1.trans (by decide), h.2.1.trans ?_, h.2.2.1, h.2.2.2⟩
  norm_num [demoRoom, demoStore, demoSurface, Room.addLayer]

/-- C9: on the synthetic 100ms timer tick, the event handler sets
`s_per_frame` to `1 / (frame_count · 10)` and resets `frame_count` to 0;
the division is unguarded, and when `frame_count` is 0 at the tick
boundary its divisor `frame_count · 10` is 0 (the division-by-zero
hazard). -/
theorem handleSDLEvents_user_tick (s : State) :
    handleSDLEvents s Event.user =
        Except.ok
          { s with s_per_frame := 1 / ((s.frame_count : ℚ) * 10), frame_count := 0 } ∧
      (s.frame_count = 0 → (s.frame_count : ℚ) * 10 = 0) := by
  refine ⟨rfl, fun h => ?_⟩
  rw [h]
  norm_num

/-- Witness for C9: the initial state has `frame_count = 0`, so a tick
arriving before any frame renders divides by the vanished divisor. -/
theorem handleSDLEvents_user_tick_witness :
    (initState.frame_count : ℚ) * 10 = 0 :=
  (handleSDLEvents_user_tick initState).2 rfl

/-- C10: `handleKey` touches at most the one movement flag matching the
arrow key, setting it to the pressed/released state; the viewpoint,
timing fields and the other three flags are unchanged, and a non-arrow
key leaves the whole state unchanged. -/
theorem handleKey_frame_effect (s : State) (keypressed : Bool) (sym : Nat) :
    (handleKey s keypressed sym).p = s.p ∧
      (handleKey s keypressed sym).s_per_frame = s.s_per_frame ∧
      (handleKey s keypressed sym).frame_count = s.frame_count ∧
      (sym = SDLK_LEFT → handleKey s keypressed sym = { s with moving_left := keypressed }) ∧
      (sym = SDLK_RIGHT → handleKey s keypressed sym = { s with moving_right := keypressed }) ∧
      (sym = SDLK_UP → handleKey s keypressed sym = { s with moving_up := keypressed }) ∧
      (sym = SDLK_DOWN → handleKey s keypressed sym = { s with moving_down := keypressed }) ∧
      (sym ≠ SDLK_LEFT → (handleKey s keypressed sym).moving_left = s.moving_left) ∧
      (sym ≠ SDLK_RIGHT → (handleKey s keypressed sym).moving_right = s.moving_right) ∧
      (sym ≠ SDLK_UP → (handleKey s keypressed sym).moving_up = s.moving_up) ∧
      (sym ≠ SDLK_DOWN → (handleKey s keypressed sym).moving_down = s.moving_down) ∧
      (sym ≠ SDLK_LEFT → sym ≠ SDLK_RIGHT → sym ≠ SDLK_UP → sym ≠ SDLK_DOWN →
        handleKey s keypressed sym = s) := by
  unfold handleKey SDLK_LEFT SDLK_RIGHT SDLK_UP SDLK_DOWN
  split_ifs with h1 h2 h3 h4 <;> simp_all

/-- Witness for C10: a left-arrow press sets only the left flag; keysym
999 is not an arrow key and leaves the state untouched. -/
theorem handleKey_frame_effect_witness :
    handleKey initState true 276 = { initState with moving_left := true } ∧
      handleKey initState true 999 = initState :=
  ⟨(handleKey_frame_effect initState true 276).2.2.2.1 rfl,
    (handleKey_frame_effect initState true 999).2.2.2.2.2.2.2.2.2.2.2
      (by decide) (by decide) (by decide) (by decide)⟩
